import Mathlib

/-!
Verification of the MultiChannel-Reasoning-System core: the attribute-conflict
rule engine (channel_3_logic_rules/reasoner.py, `LogicReasoner._mock_reasoning`)
and the multi-channel risk fusion loop (run_system.py, `run_full_inference`).

Strings are modelled as Lean `String`; Python `str.lower()` is modelled by
`String.toLower` (ASCII case folding; the rule tables and attribute values use
only ASCII letters and CJK characters, on which the two agree), `str.strip()`
by `String.trim`, and the Python substring test `a in b` by an explicit
character-list infix check.  Channel scores are rationals (`ℚ`); the Python
floats involved (0.5, 0.22, 0.3, 0.9, 0.95, 0.05) are all exactly
representable, so no rounding issues arise in the comparisons the code makes.
Rendered reason strings follow the f-strings of the source, except that the
single-quote characters around interpolated values are omitted.
-/

namespace MCRS

/-- Model of Python `needle in hay` restricted to a match starting at the head:
true iff `needle` is a prefix of `hay`. -/
def beginsWith : List Char → List Char → Bool
  | _, [] => true
  | [], _ :: _ => false
  | c :: cs, d :: ds => c == d && beginsWith cs ds

/-- Substring occurrence on character lists: true iff `needle` occurs
contiguously somewhere in `hay` (Python `needle in hay` for strings). -/
def hasSub : List Char → List Char → Bool
  | [], needle => needle.isEmpty
  | c :: cs, needle => beginsWith (c :: cs) needle || hasSub cs needle

/-- Python `needle in hay` on strings (substring containment). -/
def containsSub (hay needle : String) : Bool :=
  hasSub hay.data needle.data

/-- Python `s.lower()` (ASCII case folding; identity on CJK). -/
def lowerStr (s : String) : String := ⟨s.data.map Char.toLower⟩

/-- Python `s.strip()`: drop leading and trailing whitespace. -/
def trimStr (s : String) : String :=
  ⟨((s.data.dropWhile Char.isWhitespace).reverse.dropWhile Char.isWhitespace).reverse⟩

/- ===================== rule tables (reasoner.py __init__) ===================== -/

def night_keywords : List String :=
  ["深夜", "凌晨", "漆黑", "晚间", "通宵", "月色", "月光", "夜幕", "夜晚", "星空",
   "midnight", "night", "evening", "dark", "moon", "moonlight"]

def day_keywords : List String :=
  ["阳光", "正午", "白天", "烈日", "上午", "下午", "中午", "清晨", "朝阳",
   "noon", "daylight", "morning", "daytime", "sunny", "afternoon"]

def storm_keywords : List String :=
  ["暴雨", "洪水", "台风", "积水", "雷电", "狂风", "暴风", "大雨", "倾盆大雨", "风暴",
   "storm", "rain", "flood", "typhoon", "hurricane", "heavy rain", "rainstorm"]

def snow_keywords : List String :=
  ["大雪", "暴雪", "寒冬", "冰雪", "雪花", "白雪皑皑", "鹅毛大雪",
   "snow", "blizzard", "snowstorm", "winter", "freezing", "frost"]

def sunny_keywords : List String :=
  ["晴朗", "阳光明媚", "蓝天", "万里无云", "艳阳高照", "晴空万里",
   "sunny", "clear sky", "sunshine", "bright", "clear"]

def winter_keywords : List String :=
  ["大雪", "寒冬", "冰雪", "snow", "winter", "freezing", "cold"]

def summer_keywords : List String :=
  ["炎热", "酷暑", "短袖", "summer", "hot", "scorching"]

def crowded_keywords : List String :=
  ["人山人海", "座无虚席", "人满为患", "拥挤", "人潮涌动", "熙熙攘攘",
   "crowded", "packed", "full house"]

def empty_keywords : List String :=
  ["空无一人", "空荡荡", "无人", "冷清", "空旷",
   "empty", "deserted", "nobody"]

/-- The `state_conflicts` dict of reasoner.py, in insertion order. -/
def state_conflicts : List (String × List String) :=
  [("closed", ["敞开", "欢迎", "open", "welcome"]),
   ("sleeping", ["飞奔", "追逐", "running", "active"]),
   ("empty", ["丰盛", "满", "拥挤", "人山人海", "full", "crowded"]),
   ("red light", ["绿灯", "通行", "green light", "go"]),
   ("broken", ["全新", "完美", "无瑕", "brand new", "perfect"]),
   ("cracked", ["全新", "完美", "无瑕", "brand new", "perfect"]),
   ("sold out", ["充足", "现货", "available", "in stock"]),
   ("0-5", ["领先", "胜券在握", "winning", "leading"]),
   ("handshake", ["冲突", "打架", "破裂", "conflict", "fight"]),
   ("red card", ["继续", "无犯规", "合理", "continue", "no foul"])]

def finance_kws : List String := ["a股", "牛市", "熊市", "股市", "大盘", "指数", "黑天鹅事件"]

def crash_kws : List String := ["暴跌", "崩盘", "价格", "泡沫破裂", "资产"]

def trigger_keywords : List String := ["逻辑错误", "明显矛盾", "logic_trap", "conflict_test"]

/- ===================== data model ===================== -/

/-- Structured visual attributes handed to `_mock_reasoning` (the
`vlm_caption` dict built by `_vlm_captioning_mock`). -/
structure VisualFacts where
  Time : String
  Weather : String
  Location : String
  Fact : String
  Objects : String
  Topic : String
deriving DecidableEq, Repr

/-- A metadata row: each of the six Meta_ fields may be absent.  Present
values are modelled post-`str(...)` (Python `str` never raises). -/
structure MetaData where
  Meta_Time : Option String
  Meta_Weather : Option String
  Meta_Location : Option String
  Meta_Fact : Option String
  Meta_Object : Option String
  Meta_Topic : Option String
deriving DecidableEq, Repr

/-- Model of `_vlm_captioning_mock`: `str(meta.get(key, "Unknown")).strip()`
for each field. -/
def captioning (m : MetaData) : VisualFacts where
  Time := trimStr (m.Meta_Time.getD "Unknown")
  Weather := trimStr (m.Meta_Weather.getD "Unknown")
  Location := trimStr (m.Meta_Location.getD "Unknown")
  Fact := trimStr (m.Meta_Fact.getD "Unknown")
  Objects := trimStr (m.Meta_Object.getD "Unknown")
  Topic := trimStr (m.Meta_Topic.getD "Unknown")

/-- Conflict category, read off from the fixed `[CONFLICT] <tag>:` tag of each
`reason = ...` assignment site in `_mock_reasoning`. -/
inductive Category where
  | temporal
  | weather
  | geolocation
  | factConflict
  | manualTrigger
  | stateOCR
  | polysemy
deriving DecidableEq, Repr

/-- A produced conflict finding: its category, the text keyword that matched,
and the rendered reason string. -/
structure Finding where
  category : Category
  matchedKw : String
  rendered : String
deriving DecidableEq, Repr

/-- First-match-wins chaining of rule results (the `if not conflict_detected`
guards of `_mock_reasoning`). -/
def elseTry (x y : Option Finding) : Option Finding :=
  match x with
  | some f => some f
  | none => y

/- ===================== the rules of _mock_reasoning ===================== -/

/-- Rule A (Temporal). -/
def ruleA (timeRaw textN : String) : Option Finding :=
  let timeN := lowerStr timeRaw
  if timeN == "day" then
    (night_keywords.find? (fun kw => containsSub textN kw)).map (fun kw =>
      ⟨.temporal, kw,
       "[CONFLICT] Temporal: Image shows " ++ timeRaw ++ " (day) vs Text mentions " ++ kw⟩)
  else if timeN == "night" then
    (day_keywords.find? (fun kw => containsSub textN kw)).map (fun kw =>
      ⟨.temporal, kw,
       "[CONFLICT] Temporal: Image shows " ++ timeRaw ++ " (night) vs Text mentions " ++ kw⟩)
  else none

def sunnyScene (weatherN : String) : Bool :=
  ["sunny", "clear", "晴"].any (fun kw => containsSub weatherN kw)

def snowScene (weatherN : String) : Bool :=
  ["snow", "雪", "winter"].any (fun kw => containsSub weatherN kw)

def rainScene (weatherN : String) : Bool :=
  ["rain", "雨", "storm"].any (fun kw => containsSub weatherN kw)

/-- Rule B (Weather), with its internal short-circuit order:
sunny-vs-storm, sunny-vs-snow, snow-vs-summer, rain-vs-sunny. -/
def ruleB (weatherRaw textN : String) : Option Finding :=
  let wN := lowerStr weatherRaw
  let stormHit := storm_keywords.find? (fun kw => containsSub textN (lowerStr kw))
  let snowHit := snow_keywords.find? (fun kw => containsSub textN (lowerStr kw))
  let summerHit := summer_keywords.find? (fun kw => containsSub textN (lowerStr kw))
  let sunnyHit := sunny_keywords.find? (fun kw => containsSub textN (lowerStr kw))
  elseTry (if sunnyScene wN then stormHit.map (fun kw =>
      ⟨.weather, kw, "[CONFLICT] Weather: Image " ++ weatherRaw ++ " (sunny/clear) vs Text " ++ kw⟩)
    else none)
  (elseTry (if sunnyScene wN then snowHit.map (fun kw =>
      ⟨.weather, kw, "[CONFLICT] Weather: Image " ++ weatherRaw ++ " (sunny) vs Text " ++ kw⟩)
    else none)
  (elseTry (if snowScene wN then summerHit.map (fun kw =>
      ⟨.weather, kw, "[CONFLICT] Weather: Image " ++ weatherRaw ++ " (snow) vs Text " ++ kw⟩)
    else none)
  (if rainScene wN then sunnyHit.map (fun kw =>
      ⟨.weather, kw, "[CONFLICT] Weather: Image " ++ weatherRaw ++ " (rain) vs Text " ++ kw⟩)
    else none)))

def paris_landmarks : List String := ["eiffel tower", "埃菲尔铁塔", "巴黎", "paris"]
def wrong_cities_for_paris : List String :=
  ["tokyo", "东京", "london", "伦敦", "beijing", "北京", "new york", "纽约"]
def tokyo_landmarks : List String := ["tokyo tower", "东京塔", "tokyo", "东京"]
def wrong_cities_for_tokyo : List String :=
  ["paris", "巴黎", "eiffel", "埃菲尔", "london", "伦敦", "shanghai", "上海"]
def shanghai_landmarks : List String := ["东方明珠", "陆家嘴", "shanghai", "上海"]
def wrong_cities_for_shanghai : List String :=
  ["tokyo", "东京", "beijing", "北京", "hong kong", "香港"]
def sydney_landmarks : List String := ["sydney opera house", "悉尼歌剧院", "sydney", "悉尼"]
def wrong_cities_for_sydney : List String :=
  ["beijing", "北京", "tokyo", "东京", "london", "伦敦"]
def london_bridge : List String := ["london bridge", "tower bridge", "伦敦塔桥", "伦敦桥"]
def golden_gate : List String := ["golden gate", "金门大桥", "san francisco", "旧金山"]

/-- One landmark entry: the landmark token occurs in Objects or Location. -/
def landmarkHit (objectsN locationN : String) (lms : List String) : Bool :=
  lms.any (fun lm => containsSub objectsN lm || containsSub locationN lm)

/-- One Rule C block: landmark present and a wrong-city token in the text. -/
def geoBlock (objectsN locationN textN : String) (lms wrongs : List String)
    (msg : String) : Option Finding :=
  if landmarkHit objectsN locationN lms then
    (wrongs.find? (fun loc => containsSub textN loc)).map (fun loc =>
      ⟨.geolocation, loc, "[CONFLICT] Geolocation: Image shows " ++ msg ++ " vs Text " ++ loc⟩)
  else none

/-- Rule C (Geolocation / entity mismatch): five blocks in source order. -/
def ruleC (objectsN locationN textN : String) : Option Finding :=
  elseTry (geoBlock objectsN locationN textN paris_landmarks wrong_cities_for_paris "Paris/Eiffel Tower")
  (elseTry (geoBlock objectsN locationN textN tokyo_landmarks wrong_cities_for_tokyo "Tokyo")
  (elseTry (geoBlock objectsN locationN textN shanghai_landmarks wrong_cities_for_shanghai "Shanghai")
  (elseTry (geoBlock objectsN locationN textN sydney_landmarks wrong_cities_for_sydney "Sydney")
  (geoBlock objectsN locationN textN london_bridge golden_gate "London Bridge"))))

def emptyScene (factN : String) : Bool :=
  ["empty", "空", "no people", "无人", "deserted"].any
    (fun kw => containsSub factN (lowerStr kw))

def crowdedScene (factN : String) : Bool :=
  ["crowded", "拥挤", "人多", "many people"].any
    (fun kw => containsSub factN (lowerStr kw))

/-- Rule D (Quantity/Fact conflict). -/
def ruleD (factRaw textN : String) : Option Finding :=
  let fN := lowerStr factRaw
  let crowdedHit := crowded_keywords.find? (fun kw => containsSub textN (lowerStr kw))
  let emptyHit := empty_keywords.find? (fun kw => containsSub textN (lowerStr kw))
  elseTry (if emptyScene fN then crowdedHit.map (fun kw =>
      ⟨.factConflict, kw, "[CONFLICT] Fact: Image " ++ factRaw ++ " (empty) vs Text " ++ kw⟩)
    else none)
  (if crowdedScene fN then emptyHit.map (fun kw =>
      ⟨.factConflict, kw, "[CONFLICT] Fact: Image " ++ factRaw ++ " (crowded) vs Text " ++ kw⟩)
    else none)

/-- Rule E (Manual trigger): fires on the text alone, no visual condition. -/
def ruleE (textN : String) : Option Finding :=
  (trigger_keywords.find? (fun kw => containsSub textN kw)).map (fun kw =>
    ⟨.manualTrigger, kw, "[CONFLICT] Manual Trigger: " ++ kw ++ " detected"⟩)

/-- Rule G loop body: first dict entry whose state key occurs in Fact or
Objects and one of whose antonym keywords occurs in the text; an entry whose
key matches but has no antonym hit is skipped (no break in the source). -/
def firstStateHit (factN objectsN textN : String) :
    List (String × List String) → Option Finding
  | [] => none
  | (key, antis) :: rest =>
    if containsSub factN key || containsSub objectsN key then
      match antis.find? (fun ak => containsSub textN (lowerStr ak)) with
      | some ak => some ⟨.stateOCR, ak,
          "[CONFLICT] State/OCR: Image " ++ key ++ " vs Text " ++ ak⟩
      | none => firstStateHit factN objectsN textN rest
    else firstStateHit factN objectsN textN rest

/-- Rule G (State/OCR conflicts, V2.0). -/
def ruleG (factN objectsN textN : String) : Option Finding :=
  firstStateHit factN objectsN textN state_conflicts

def animalTopics : List String := ["animal", "living animal", "动物", "生物"]
def objectTopics : List String := ["sports", "object", "soap bubble", "体育", "物体", "泡泡"]

/-- Rule H (Topic / polysemy, V2.0): exact membership on the normalized topic;
the second branch is an elif of the first. -/
def ruleH (topicN textN : String) : Option Finding :=
  if animalTopics.contains topicN then
    (finance_kws.find? (fun kw => containsSub textN kw)).map (fun kw =>
      ⟨.polysemy, kw, "[CONFLICT] Polysemy: Image real animal vs Text finance " ++ kw⟩)
  else if objectTopics.contains topicN then
    (crash_kws.find? (fun kw => containsSub textN kw)).map (fun kw =>
      ⟨.polysemy, kw, "[CONFLICT] Polysemy: Image physical object vs Text economic " ++ kw⟩)
  else none

/-- The whole `_mock_reasoning` decision: rules in source order
A, B, C, D, E (manual trigger), G (state/OCR), H (topic), first match wins.
Rule F only prints a warning and never changes the returned pair. -/
def evaluate (v : VisualFacts) (text : String) : Option Finding :=
  let textN := lowerStr text
  elseTry (ruleA v.Time textN)
  (elseTry (ruleB v.Weather textN)
  (elseTry (ruleC (lowerStr v.Objects) (lowerStr v.Location) textN)
  (elseTry (ruleD v.Fact textN)
  (elseTry (ruleE textN)
  (elseTry (ruleG (lowerStr v.Fact) (lowerStr v.Objects) textN)
  (ruleH (lowerStr v.Topic) textN))))))

def consistent_reason : String :=
  "[CONSISTENT] Visual evidence aligns with text description"

/-- The `(conflict_detected, reason)` pair `_mock_reasoning` returns.  The
`image_path` argument is taken exactly as in the source; there it feeds only
the Rule F warning print and never the returned pair. -/
def mock_reasoning (v : VisualFacts) (text _image_path : String) : Bool × String :=
  match evaluate v text with
  | some f => (true, f.rendered)
  | none => (false, consistent_reason)

/-- `LogicReasoner.reasoning`: mock captioning from the metadata row, then
`_mock_reasoning`. -/
def reasoning (image_path text : String) (m : MetaData) : Bool × String :=
  mock_reasoning (captioning m) text image_path

/-- Disjunction of every rule's visual condition (the attribute-side
predicates of rules A, B, C, D, G and H; rule E has none). -/
def visualCondAny (v : VisualFacts) : Bool :=
  let timeN := lowerStr v.Time
  let wN := lowerStr v.Weather
  let oN := lowerStr v.Objects
  let lN := lowerStr v.Location
  let fN := lowerStr v.Fact
  let tN := lowerStr v.Topic
  (timeN == "day") || (timeN == "night")
    || sunnyScene wN || snowScene wN || rainScene wN
    || landmarkHit oN lN paris_landmarks || landmarkHit oN lN tokyo_landmarks
    || landmarkHit oN lN shanghai_landmarks || landmarkHit oN lN sydney_landmarks
    || landmarkHit oN lN london_bridge
    || emptyScene fN || crowdedScene fN
    || state_conflicts.any (fun p => containsSub fN p.1 || containsSub oN p.1)
    || animalTopics.contains tN || objectTopics.contains tN

/-- All six attributes equal to the literal Unknown. -/
def unknownFacts : VisualFacts :=
  ⟨"Unknown", "Unknown", "Unknown", "Unknown", "Unknown", "Unknown"⟩

/-- A metadata row with every Meta_ field absent. -/
def emptyMeta : MetaData := ⟨none, none, none, none, none, none⟩

/-- Attributes of concrete scenario 1 of the spec (sample ID 041):
Time=Day, Weather=Sunny. -/
def dayFacts : VisualFacts :=
  ⟨"Day", "Sunny", "Street", "Noon", "Street", "Unknown"⟩

/-- The text of concrete scenario 1. -/
def nightText : String := "深夜的街道格外宁静，月光洒满大地"

/-- Attributes whose Fact field satisfies the closed-vs-open State/OCR rule
and nothing else. -/
def closedFacts : VisualFacts :=
  ⟨"Unknown", "Unknown", "Unknown", "closed", "Unknown", "Unknown"⟩

/-- A text that satisfies both the closed-state antonym rule (open) and a
manual-trigger keyword (logic_trap). -/
def openTriggerText : String := "open logic_trap"

/- ===================== risk fusion (run_system.py, run_full_inference) ===================== -/

/-- Channel 1 threshold 0.5: score above it means fake. -/
def TH_CH1 : ℚ := mkRat 1 2

/-- Channel 2 threshold 0.22: score below it means fake. -/
def TH_CH2 : ℚ := mkRat 22 100

/-- Channel 3 threshold 0.5: score above it means fake. -/
def TH_CH3 : ℚ := mkRat 1 2

/-- Python `max(a, b)`. -/
def pyMax (a b : ℚ) : ℚ := if a < b then b else a

/-- Channel 1 alarm: `s1 > TH_CH1` (high score is risk, strict). -/
def alarm_ch1 (s : ℚ) : Bool := decide (s > TH_CH1)

/-- Channel 2 alarm: `s2_raw < TH_CH2` (low score is risk, strict). -/
def alarm_ch2 (s : ℚ) : Bool := decide (s < TH_CH2)

/-- Channel 3 alarm: `s3 > TH_CH3` (high score is risk, strict). -/
def alarm_ch3 (s : ℚ) : Bool := decide (s > TH_CH3)

/-- Which channel an alarming reason line came from (the code renders the
reason strings with the formatted score inline). -/
inductive Channel where
  | ch1
  | ch2
  | ch3
deriving DecidableEq, Repr

/-- The per-sample output record appended to `results` (score rounding for
display omitted: it does not feed any decision). -/
structure Verdict where
  isFake : Bool
  predLabel : ℕ
  riskScore : ℚ
  reasons : List Channel
  scoreCh1 : ℚ
  scoreCh2 : ℚ
  scoreCh3 : ℚ
deriving DecidableEq, Repr

/-- The voting logic of `run_full_inference`, with the source's sequential
state updates: `is_fake` starts False and is set by each alarming check in
turn, `reasons` collects one entry per alarming channel in check order, and
`max_risk` starts at 0 and takes `max` with `s1` or `s3` when those channels
alarm, but with the constant 0.9 when channel 2 alarms. -/
def fuse (s1 s2 s3 : ℚ) : Verdict :=
  let f0 := false
  let r0 : List Channel := []
  let m0 : ℚ := 0
  let f1 := if alarm_ch1 s1 then true else f0
  let r1 := if alarm_ch1 s1 then r0 ++ [Channel.ch1] else r0
  let m1 := if alarm_ch1 s1 then pyMax m0 s1 else m0
  let f2 := if alarm_ch2 s2 then true else f1
  let r2 := if alarm_ch2 s2 then r1 ++ [Channel.ch2] else r1
  let m2 := if alarm_ch2 s2 then pyMax m1 (mkRat 9 10) else m1
  let f3 := if alarm_ch3 s3 then true else f2
  let r3 := if alarm_ch3 s3 then r2 ++ [Channel.ch3] else r2
  let m3 := if alarm_ch3 s3 then pyMax m2 s3 else m2
  { isFake := f3
    predLabel := if f3 then 1 else 0
    riskScore := m3
    reasons := r3
    scoreCh1 := s1
    scoreCh2 := s2
    scoreCh3 := s3 }

/-- The probabilistic noisy-OR fusion formula quoted in the docstring of
data/create_excel_final.py. -/
def p_final (s1 s2 s3 : ℚ) : ℚ := 1 - (1 - s1) * (1 - s2) * (1 - s3)

/-- Channel 1 score acquisition in the sample loop: used only when an image
was resolved and the detector loaded; a raising `detect` call (modelled by
`none`) is caught and replaced by 0.5; otherwise the default is 0.0. -/
def ch1ScoreOf (has_image has_detector : Bool) (det : Option ℚ) : ℚ :=
  if has_image && has_detector then
    match det with
    | some v => v
    | none => mkRat 1 2
  else 0

/-- Channel 2 score acquisition: the provider is called only when an image was
resolved and the provider imported; otherwise the default 0.3 stands.  The
call itself is not wrapped in try/except in the source. -/
def ch2ScoreOf (has_image has_provider : Bool) (v : ℚ) : ℚ :=
  if has_image && has_provider then v else mkRat 3 10

/-- Channel 3 score acquisition: default 0.0 when the image or the provider is
missing. -/
def ch3ScoreOf (has_image has_provider : Bool) (v : ℚ) : ℚ :=
  if has_image && has_provider then v else 0

/-- Outcome of the VLM call inside `get_logic_score`
(channel_3_logic_rules/interface.py). -/
inductive LogicOutcome where
  | parsed (v : ℚ)
  | yes
  | no
  | unparsed
  | raised
deriving DecidableEq, Repr

/-- `get_logic_score`: 0.5 when the model failed to load; otherwise
`1 - min(v/10, 1)` from a parsed number, 0.1/0.9 from a yes/no answer, and
the 0.5 fail-safe when nothing parses or the call raises. -/
def get_logic_score (model_ok : Bool) (o : LogicOutcome) : ℚ :=
  if model_ok then
    match o with
    | .parsed v =>
      let normalized := v / 10
      let clamped := if normalized > 1 then 1 else normalized
      1 - clamped
    | .yes => mkRat 1 10
    | .no => mkRat 9 10
    | .unparsed => mkRat 1 2
    | .raised => mkRat 1 2
  else mkRat 1 2

/- ===================== helper lemmas ===================== -/

lemma pyMax_eq_max (a b : ℚ) : pyMax a b = max a b := by
  rw [pyMax, max_def]
  rcases lt_trichotomy a b with h | h | h
  · rw [if_pos h, if_pos h.le]
  · subst h
    simp
  · rw [if_neg (not_lt.mpr h.le), if_neg (not_le.mpr h)]

lemma fuse_isFake_or (s1 s2 s3 : ℚ) :
    (fuse s1 s2 s3).isFake = (alarm_ch1 s1 || alarm_ch2 s2 || alarm_ch3 s3) := by
  cases h1 : alarm_ch1 s1 <;> cases h2 : alarm_ch2 s2 <;> cases h3 : alarm_ch3 s3 <;>
    simp [fuse, h1, h2, h3]

lemma ruleE_category {tN : String} {f : Finding} (h : ruleE tN = some f) :
    f.category = Category.manualTrigger := by
  simp only [ruleE] at h
  obtain ⟨kw, hk, rfl⟩ := Option.map_eq_some'.mp h
  rfl

lemma firstStateHit_eq_none (fN oN tN : String) (l : List (String × List String))
    (h : ∀ p ∈ l, (containsSub fN p.1 || containsSub oN p.1) = false) :
    firstStateHit fN oN tN l = none := by
  induction l with
  | nil => rfl
  | cons p rest ih =>
    obtain ⟨key, antis⟩ := p
    have hk := h (key, antis) (by simp)
    simp only at hk
    simp only [firstStateHit]
    rw [if_neg (by simp [hk])]
    exact ih (fun q hq => h q (by simp [hq]))

lemma evaluate_eq_none_of_no_visual (v : VisualFacts) (text : String)
    (hv : visualCondAny v = false)
    (ht : trigger_keywords.find? (fun kw => containsSub (lowerStr text) kw) = none) :
    evaluate v text = none := by
  simp only [visualCondAny, Bool.or_eq_false_iff] at hv
  obtain ⟨⟨⟨⟨⟨⟨⟨⟨⟨⟨⟨⟨⟨⟨hday, hnight⟩, hsun⟩, hsnow⟩, hrain⟩, hp⟩, htk⟩, hsh⟩, hsy⟩,
    hlb⟩, hemp⟩, hcrowd⟩, hstate⟩, hanim⟩, hobj⟩ := hv
  have hA : ruleA v.Time (lowerStr text) = none := by
    simp [ruleA, hday, hnight]
  have hB : ruleB v.Weather (lowerStr text) = none := by
    simp [ruleB, elseTry, hsun, hsnow, hrain]
  have hC : ruleC (lowerStr v.Objects) (lowerStr v.Location) (lowerStr text) = none := by
    simp [ruleC, geoBlock, elseTry, hp, htk, hsh, hsy, hlb]
  have hD : ruleD v.Fact (lowerStr text) = none := by
    simp [ruleD, elseTry, hemp, hcrowd]
  have hE : ruleE (lowerStr text) = none := by
    simp [ruleE, ht]
  have hG : ruleG (lowerStr v.Fact) (lowerStr v.Objects) (lowerStr text) = none := by
    apply firstStateHit_eq_none
    intro q hq
    have hall : ∀ x ∈ state_conflicts,
        (containsSub (lowerStr v.Fact) x.1 || containsSub (lowerStr v.Objects) x.1) = false := by
      simpa using hstate
    exact hall q hq
  have hH : ruleH (lowerStr v.Topic) (lowerStr text) = none := by
    have h1 : ¬ (lowerStr v.Topic ∈ animalTopics) := by simpa using hanim
    have h2 : ¬ (lowerStr v.Topic ∈ objectTopics) := by simpa using hobj
    simp [ruleH, h1, h2]
  simp [evaluate, elseTry, hA, hB, hC, hD, hE, hG, hH]

/- ===================== claim theorems ===================== -/

/-- C1: the fused verdict is_risk (is_fake) is true iff at least one of the
three channel alarms fires — a logical OR of the per-channel alarms (tamper,
semantic, and the channel-3 logic/conflict channel), never an average or
weighted sum; in particular any single alarming channel forces the verdict. -/
theorem C1_is_risk_iff_some_alarm (s1 s2 s3 : ℚ) :
    (fuse s1 s2 s3).isFake = (alarm_ch1 s1 || alarm_ch2 s2 || alarm_ch3 s3) :=
  fuse_isFake_or s1 s2 s3

/-- C2 counterexample: with scores (0, 0.1, 0) only the semantic low-is-risk
channel alarms (0.1 < 0.22), yet the reported risk_score is the constant 0.9,
not that channel's raw score 0.1 as the claim states. -/
theorem C2_counterexample :
    alarm_ch1 0 = false ∧ alarm_ch2 (mkRat 1 10) = true ∧ alarm_ch3 0 = false ∧
    (fuse 0 (mkRat 1 10) 0).riskScore = mkRat 9 10 ∧
    ¬ ((fuse 0 (mkRat 1 10) 0).riskScore = mkRat 1 10) := by
  decide

/-- C2 amended: the reported risk_score is the maximum over alarming channels
of their contribution, where channels 1 and 3 contribute their raw scores but
the alarming semantic channel contributes the constant 0.9 instead of its raw
score; it is 0 when no channel alarms. -/
theorem C2_amended_risk_score_max (s1 s2 s3 : ℚ) :
    (fuse s1 s2 s3).riskScore =
      max 0 (max (if alarm_ch1 s1 then s1 else 0)
        (max (if alarm_ch2 s2 then (mkRat 9 10 : ℚ) else 0)
          (if alarm_ch3 s3 then s3 else 0))) := by
  cases h1 : alarm_ch1 s1 <;> cases h2 : alarm_ch2 s2 <;> cases h3 : alarm_ch3 s3 <;>
    simp [fuse, h1, h2, h3, pyMax_eq_max, max_assoc, max_comm, max_left_comm, max_self]

/-- C3 counterexample: with Fact = closed and text "open logic_trap", the
State/Provenance (State/OCR) rule matches on its own, yet the engine reports
category Manual-Trigger, because the Manual-Trigger rule is evaluated before
the State/OCR rule — refuting the claimed order in which Manual-Trigger
comes last. -/
theorem C3_counterexample :
    (evaluate closedFacts openTriggerText).map Finding.category
        = some Category.manualTrigger ∧
    Category.manualTrigger ≠ Category.stateOCR ∧
    (ruleG (lowerStr closedFacts.Fact) (lowerStr closedFacts.Objects)
        (lowerStr openTriggerText)).map Finding.category = some Category.stateOCR := by
  decide

/-- C3 amended: the categories are evaluated in the fixed order Temporal,
Weather, Geospatial/Entity, Quantity/Fact, Manual-Trigger, State/Provenance,
Topic/Polysemy (Manual-Trigger before the last two): whenever the first four
categories produce no finding and the text contains a Manual-Trigger keyword,
the reported category is Manual-Trigger — even if a State/Provenance rule
also matches. -/
theorem C3_amended_manual_trigger_preempts (v : VisualFacts) (text : String)
    (hA : ruleA v.Time (lowerStr text) = none)
    (hB : ruleB v.Weather (lowerStr text) = none)
    (hC : ruleC (lowerStr v.Objects) (lowerStr v.Location) (lowerStr text) = none)
    (hD : ruleD v.Fact (lowerStr text) = none)
    (hE : (ruleE (lowerStr text)).isSome = true) :
    (evaluate v text).map Finding.category = some Category.manualTrigger := by
  obtain ⟨f, hf⟩ := Option.isSome_iff_exists.mp hE
  have hcat := ruleE_category hf
  simp [evaluate, elseTry, hA, hB, hC, hD, hf, hcat]

/-- C3 amended witness at the concrete counterexample input. -/
theorem C3_amended_witness :
    (evaluate closedFacts openTriggerText).map Finding.category
      = some Category.manualTrigger :=
  C3_amended_manual_trigger_preempts closedFacts openTriggerText
    (by decide) (by decide) (by decide) (by decide) (by decide)

/-- C4 counterexample: with all six attributes Unknown no rule's visual
condition holds, yet the text "logic_trap" still produces a conflict via the
Manual-Trigger rule, which fires on the text alone — refuting "no conflict
for every possible text content". -/
theorem C4_counterexample :
    visualCondAny unknownFacts = false ∧
    (evaluate unknownFacts "logic_trap").isSome = true ∧
    (mock_reasoning unknownFacts "logic_trap" "img_000.jpg").1 = true := by
  decide

/-- C4 amended: for every VisualAttributes record in which no field satisfies
any rule's visual condition, evaluate returns no conflict for every text that
contains no Manual-Trigger keyword (the Manual-Trigger rule has no visual
condition and fires on the text alone). -/
theorem C4_amended_no_visual_no_conflict (v : VisualFacts) (text ipath : String)
    (hv : visualCondAny v = false)
    (ht : trigger_keywords.find? (fun kw => containsSub (lowerStr text) kw) = none) :
    evaluate v text = none ∧ mock_reasoning v text ipath = (false, consistent_reason) := by
  have h := evaluate_eq_none_of_no_visual v text hv ht
  exact ⟨h, by simp [mock_reasoning, h]⟩

/-- C4 amended witness: all-Unknown attributes with a neutral text. -/
theorem C4_amended_witness : evaluate unknownFacts "hello" = none :=
  (C4_amended_no_visual_no_conflict unknownFacts "hello" "img_000.jpg"
    (by decide) (by decide)).1

/-- C5 counterexample: when the semantic channel provider is missing, the
substituted score is 0.3, not 0.0 as the claim states — and 0.0 would alarm
on this low-is-risk channel, so the claimed substitution would not be
non-alarming either. -/
theorem C5_counterexample :
    ch2ScoreOf true false 0 = mkRat 3 10 ∧
    ¬ (ch2ScoreOf true false 0 = 0) ∧
    alarm_ch2 0 = true := by
  decide

/-- C5 amended: missing providers get channel-specific safe defaults
(channel 1: 0.0, channel 2: 0.3, channel 3: 0.0), a raising channel-1 detect
call gets 0.5, and the channel-3 interface returns its 0.5 fail-safe when its
model is missing or the call raises; every one of these substituted scores is
non-alarming, and fusing the substituted scores still completes with a safe
verdict. -/
theorem C5_amended_fail_open_defaults (v : ℚ) (o : LogicOutcome) :
    ch1ScoreOf false true (some v) = 0 ∧
    ch1ScoreOf true false (some v) = 0 ∧
    ch1ScoreOf true true none = mkRat 1 2 ∧
    alarm_ch1 0 = false ∧
    alarm_ch1 (mkRat 1 2) = false ∧
    ch2ScoreOf true false v = mkRat 3 10 ∧
    alarm_ch2 (mkRat 3 10) = false ∧
    ch3ScoreOf true false v = 0 ∧
    get_logic_score false o = mkRat 1 2 ∧
    get_logic_score true LogicOutcome.raised = mkRat 1 2 ∧
    alarm_ch3 0 = false ∧
    alarm_ch3 (mkRat 1 2) = false ∧
    (fuse (mkRat 1 2) (mkRat 3 10) 0).isFake = false := by
  refine ⟨by simp [ch1ScoreOf], by simp [ch1ScoreOf], by decide, by decide, by decide,
    by simp [ch2ScoreOf], by decide, by simp [ch3ScoreOf], by simp [get_logic_score],
    by decide, by decide, by decide, by decide⟩

/-- C6 counterexample: at scores (0.6, 0.5, 0) the noisy-OR fused probability
1 - (1-0.6)(1-0.5)(1-0) equals 0.8, and no component of the verdict the
fusion engine reports (risk score, per-channel scores, predicted label)
equals that value: the probabilistic fused score is not reported. -/
theorem C6_counterexample :
    p_final (mkRat 3 5) (mkRat 1 2) 0 = mkRat 4 5 ∧
    (fuse (mkRat 3 5) (mkRat 1 2) 0).riskScore ≠ mkRat 4 5 ∧
    (fuse (mkRat 3 5) (mkRat 1 2) 0).scoreCh1 ≠ mkRat 4 5 ∧
    (fuse (mkRat 3 5) (mkRat 1 2) 0).scoreCh2 ≠ mkRat 4 5 ∧
    (fuse (mkRat 3 5) (mkRat 1 2) 0).scoreCh3 ≠ mkRat 4 5 ∧
    ((fuse (mkRat 3 5) (mkRat 1 2) 0).predLabel : ℚ) ≠ mkRat 4 5 := by
  refine ⟨?_, by decide, by decide, by decide, by decide, ?_⟩
  · simp only [p_final, Rat.mkRat_eq_div]
    norm_num
  · have h : (fuse (mkRat 3 5) (mkRat 1 2) 0).predLabel = 1 := by decide
    rw [h, Rat.mkRat_eq_div]
    norm_num

/-- C6 amended: the fusion engine computes no probabilistic fused score; its
boolean is_risk verdict is a function of the three threshold alarms alone, so
no fused probability (and no other function of the raw scores) influences
it. -/
theorem C6_amended_is_risk_from_alarms_only (s1 s2 s3 t1 t2 t3 : ℚ)
    (h1 : alarm_ch1 s1 = alarm_ch1 t1)
    (h2 : alarm_ch2 s2 = alarm_ch2 t2)
    (h3 : alarm_ch3 s3 = alarm_ch3 t3) :
    (fuse s1 s2 s3).isFake = (fuse t1 t2 t3).isFake := by
  rw [fuse_isFake_or, fuse_isFake_or, h1, h2, h3]

/-- C6 amended witness at concrete scores with equal alarms. -/
theorem C6_amended_witness : (fuse 1 1 1).isFake = (fuse (mkRat 3 4) 1 1).isFake :=
  C6_amended_is_risk_from_alarms_only 1 1 1 (mkRat 3 4) 1 1
    (by decide) (by decide) (by decide)

/-- C7: whenever the Time attribute lower-cases to day and the lower-cased
text contains a configured night keyword as a substring, the engine reports a
conflict with category Temporal. -/
theorem C7_day_vs_night_is_temporal (v : VisualFacts) (text : String)
    (hday : lowerStr v.Time = "day")
    (hkw : ∃ kw ∈ night_keywords, containsSub (lowerStr text) kw = true) :
    (evaluate v text).isSome = true ∧
    (evaluate v text).map Finding.category = some Category.temporal := by
  have hfind : (night_keywords.find? (fun kw => containsSub (lowerStr text) kw)).isSome := by
    rw [List.find?_isSome]
    simpa using hkw
  obtain ⟨kw, hkw2⟩ := Option.isSome_iff_exists.mp hfind
  constructor <;> simp [evaluate, elseTry, ruleA, hday, hkw2]

/-- C7 witness: concrete scenario 1 of the spec — Time=Day, Weather=Sunny and
the night text of sample 041 yield a Temporal conflict. -/
theorem C7_witness :
    (evaluate dayFacts nightText).map Finding.category = some Category.temporal :=
  (C7_day_vs_night_is_temporal dayFacts nightText (by decide)
    ⟨"深夜", by decide, by decide⟩).2

/-- C8: each channel alarm is a strict comparison against its threshold
(greater-than for the high-is-risk channels 1 and 3, less-than for the
low-is-risk channel 2), so a score exactly equal to its threshold never
alarms, and fusing the three threshold values themselves yields a safe
verdict. -/
theorem C8_strict_threshold_alarms (s1 s2 s3 : ℚ) :
    (alarm_ch1 s1 = true ↔ s1 > TH_CH1) ∧
    (alarm_ch2 s2 = true ↔ s2 < TH_CH2) ∧
    (alarm_ch3 s3 = true ↔ s3 > TH_CH3) ∧
    alarm_ch1 TH_CH1 = false ∧
    alarm_ch2 TH_CH2 = false ∧
    alarm_ch3 TH_CH3 = false ∧
    (fuse TH_CH1 TH_CH2 TH_CH3).isFake = false := by
  refine ⟨?_, ?_, ?_, by decide, by decide, by decide, by decide⟩ <;>
    simp [alarm_ch1, alarm_ch2, alarm_ch3]

/-- C9: the conflict engine's returned (conflict, reason) pair does not
depend on the image path — identical text and attributes with different
image_path values give identical results, both at the `_mock_reasoning`
level and through `reasoning`. -/
theorem C9_image_path_independent (p1 p2 text : String) (v : VisualFacts) (m : MetaData) :
    mock_reasoning v text p1 = mock_reasoning v text p2 ∧
    reasoning p1 text m = reasoning p2 text m :=
  ⟨rfl, rfl⟩

/-- C10: evaluation is total on any metadata row (a result pair always
exists), each absent Meta_ field is coerced to the literal string Unknown,
and a row with every field absent — hence all attributes Unknown — never
produces a conflict on its own (for any text free of Manual-Trigger
keywords). -/
theorem C10_defaulting_and_unknown_safe (m : MetaData) (ipath text : String)
    (ht : trigger_keywords.find? (fun kw => containsSub (lowerStr text) kw) = none) :
    (m.Meta_Time = none → (captioning m).Time = "Unknown") ∧
    (m.Meta_Weather = none → (captioning m).Weather = "Unknown") ∧
    (m.Meta_Location = none → (captioning m).Location = "Unknown") ∧
    (m.Meta_Fact = none → (captioning m).Fact = "Unknown") ∧
    (m.Meta_Object = none → (captioning m).Objects = "Unknown") ∧
    (m.Meta_Topic = none → (captioning m).Topic = "Unknown") ∧
    (∃ b r, reasoning ipath text m = (b, r)) ∧
    reasoning ipath text emptyMeta = (false, consistent_reason) := by
  refine ⟨?_, ?_, ?_, ?_, ?_, ?_, ⟨_, _, rfl⟩, ?_⟩
  · intro h
    simp only [captioning, h, Option.getD_none]
    decide
  · intro h
    simp only [captioning, h, Option.getD_none]
    decide
  · intro h
    simp only [captioning, h, Option.getD_none]
    decide
  · intro h
    simp only [captioning, h, Option.getD_none]
    decide
  · intro h
    simp only [captioning, h, Option.getD_none]
    decide
  · intro h
    simp only [captioning, h, Option.getD_none]
    decide
  · have hv : visualCondAny (captioning emptyMeta) = false := by decide
    have hnone := evaluate_eq_none_of_no_visual (captioning emptyMeta) text hv ht
    simp [reasoning, mock_reasoning, hnone]

/-- C10 witness: the all-absent row with a neutral text. -/
theorem C10_witness : reasoning "img_001.jpg" "hello" emptyMeta = (false, consistent_reason) :=
  (C10_defaulting_and_unknown_safe emptyMeta "img_001.jpg" "hello"
    (by decide)).2.2.2.2.2.2.2

end MCRS
